import Mathlib

/-!
Verification of the circadian analytics core (`readers.py`, `metrics.py`).

Timestamps are modelled as integers (seconds since an arbitrary epoch),
values and the `esri` time axis as rationals.  Pandas `Timedelta.seconds`
is the seconds component of the day/seconds decomposition, i.e. the
Euclidean remainder modulo 86400, which is what `tdSeconds` computes.
Float division results are modelled by `PyVal`, which distinguishes a
finite quotient from the IEEE `inf`/`-inf`/`nan` produced on division by
zero.
-/

set_option autoImplicit false

/-- Seconds component of a pandas `Timedelta` of `t` whole seconds:
`Timedelta(t).seconds = t mod 86400`, always in `[0, 86400)`. -/
def tdSeconds (t : Int) : Int := t % 86400

/-- Result of a floating-point division in pandas/numpy: a finite value,
or one of the non-finite markers produced by dividing by zero. -/
inductive PyVal where
  | num (q : ℚ)
  | inf
  | ninf
  | nan
deriving DecidableEq

/-- Float division as numpy performs it on integer-valued operands:
ordinary division when the denominator is nonzero, otherwise
`inf`/`-inf`/`nan` according to the numerator sign. -/
def pyDiv (a b : Int) : PyVal :=
  if b ≠ 0 then .num ((a : ℚ) / (b : ℚ))
  else if 0 < a then .inf
  else if a < 0 then .ninf
  else .nan

/-- `interval_fraction` from `readers.py`: per source interval, divides the
`.seconds` component of `min(stop, ref_stop) - max(start, ref_start)` by the
`.seconds` component of `stop - start`. -/
def interval_fraction (starts stops : List Int) (ref_start ref_stop : Int) :
    List PyVal :=
  let max_starts := starts.map (fun x => max x ref_start)
  let min_ends := stops.map (fun x => min x ref_stop)
  let contained_intervals := (min_ends.zip max_starts).map
    (fun p => tdSeconds (p.1 - p.2))
  let full_intervals := (stops.zip starts).map (fun p => tdSeconds (p.1 - p.2))
  (contained_intervals.zip full_intervals).map (fun p => pyDiv p.1 p.2)

/-- `VALID_WEARABLE_STREAMS` from `readers.py`. -/
def VALID_WEARABLE_STREAMS : List String :=
  ["steps", "heartrate", "wake", "light_estimate", "activity"]

/-- `WearableData._validate_columns`: passes iff the frame has a
`datetime`, `start` or `end` column, and at least one recognized stream
column.  `true` means the Python code does not raise. -/
def validate_columns (cols : List String) : Bool :=
  (cols.contains "datetime" || cols.contains "start" || cols.contains "end")
    && VALID_WEARABLE_STREAMS.any (fun s => cols.contains s)

/-- `WearableData._validate_metadata`: an empty metadata dict passes; a
non-empty one must contain a `data_id` or `subject_id` key (string values
are enforced by the modelling type). -/
def validate_metadata (metadata : List (String × String)) : Bool :=
  metadata.isEmpty
    || (metadata.any (fun p => p.1 == "data_id")
        || metadata.any (fun p => p.1 == "subject_id"))

/-- `WearableData.is_valid`: validates the columns and the frame
metadata. -/
def is_valid (cols : List String) (attrs : List (String × String)) : Bool :=
  validate_columns cols && validate_metadata attrs

/-- Minimum of a list of timestamps, as `pd.Series.min()` on a non-empty
series (the empty case never occurs under the hypotheses used below). -/
def listMin : List Int → Int
  | [] => 0
  | x :: xs => xs.foldl min x

/-- Maximum of a list of timestamps, as `pd.Series.max()` on a non-empty
series. -/
def listMax : List Int → Int
  | [] => 0
  | x :: xs => xs.foldl max x

/-- `pd.date_range(start, stop, freq)`: every point `start + k*freq` up to
and including `stop`; empty when `stop < start`.  Pandas frequency strings
are always positive durations, so `freq ≤ 0` is also mapped to the empty
range. -/
def dateRange (start stop freq : Int) : List Int :=
  if freq ≤ 0 ∨ stop < start then []
  else (List.range (((stop - start) / freq).toNat + 1)).map
    (fun (k : Nat) => start + (k : Int) * freq)

/-- One wearable stream as consumed by `resample_df`: either one timestamp
per record (a `datetime` column) or one `[start, end)` span per record. -/
inductive StreamData where
  | instant (times : List Int) (values : List ℚ)
  | interval (starts stops : List Int) (values : List ℚ)

/-- `pd.Series.agg(method)` for the four supported aggregation names; only
applied to non-empty buckets in `resample_df`. -/
def aggList : String → List ℚ → ℚ
  | "sum", l => l.sum
  | "mean", l => l.sum / (l.length : ℚ)
  | "max", l => match l with
    | [] => 0
    | x :: xs => xs.foldl max x
  | "min", l => match l with
    | [] => 0
    | x :: xs => xs.foldl min x
  | _, _ => 0

/-- Value of one resampling bucket of an instant-indexed stream: the source
selects records with `datetime <= g + freq` and `datetime >= g` (inclusive
at both ends) and aggregates them; an empty bucket keeps the `np.zeros`
fill. -/
def instantBucket (times : List Int) (values : List ℚ) (agg : String)
    (freq g : Int) : ℚ :=
  let mask := (times.zip values).filter (fun p => g ≤ p.1 && p.1 ≤ g + freq)
  if mask.isEmpty then 0 else aggList agg (mask.map Prod.snd)

/-- Value of one resampling bucket of an interval-indexed stream: records
with `start <= g + freq` and `end > g` are weighted by the source's
`interval_fraction` arithmetic (including its `Timedelta.seconds`
wrap-around) and aggregated.  The float division is modelled in `ℚ`,
which is exact whenever the `.seconds` component of the duration is
non-zero, i.e. the duration is not a whole multiple of 24 hours. -/
def intervalBucket (starts stops : List Int) (values : List ℚ) (agg : String)
    (freq g : Int) : ℚ :=
  let next := g + freq
  let mask := ((starts.zip stops).zip values).filter
    (fun p => p.1.1 ≤ next && g < p.1.2)
  if mask.isEmpty then 0
  else aggList agg (mask.map (fun p =>
    p.2 * ((tdSeconds (min p.1.2 next - max p.1.1 g) : ℚ) /
      (tdSeconds (p.1.2 - p.1.1) : ℚ))))

/-- Bucket value of a stream at grid point `g`, dispatching on the stream
shape the way `resample_df` branches on the presence of `start`/`end`
columns. -/
def bucketValue (sd : StreamData) (agg : String) (freq g : Int) : ℚ :=
  match sd with
  | .instant times values => instantBucket times values agg freq g
  | .interval starts stops values => intervalBucket starts stops values agg freq g

/-- The resampling bucket at `g` selects no record of the stream. -/
def bucketMaskEmpty (sd : StreamData) (freq g : Int) : Prop :=
  match sd with
  | .instant times values =>
    (times.zip values).filter (fun p => g ≤ p.1 && p.1 ≤ g + freq) = []
  | .interval starts stops values =>
    ((starts.zip stops).zip values).filter
      (fun p => p.1.1 ≤ g + freq && g < p.1.2) = []

/-- Lower data bound used for default grid bounds: `start.min()` for
interval streams, `datetime.min()` otherwise. -/
def streamLower : StreamData → Int
  | .instant times _ => listMin times
  | .interval starts _ _ => listMin starts

/-- Upper data bound used for default grid bounds: `end.max()` for interval
streams, `datetime.max()` otherwise. -/
def streamUpper : StreamData → Int
  | .instant times _ => listMax times
  | .interval _ stops _ => listMax stops

/-- Core of `resample_df` after validation: build the uniform grid and one
aggregated value per grid point. -/
def resample_core (sd : StreamData) (agg : String) (freq ini fin : Int) :
    List Int × List ℚ :=
  let grid := dateRange ini fin freq
  (grid, grid.map (bucketValue sd agg freq))

/-- `resample_df` from `readers.py`: validates the aggregation name and the
frequency, derives missing grid bounds from the data, and resamples.
Schema checks on the concrete frame (column presence, wearable validity)
hold by construction of `StreamData`. -/
def resample_df (sd : StreamData) (freq : Int) (agg_method : String)
    (initial_datetime final_datetime : Option Int) :
    Except String (List Int × List ℚ) :=
  if agg_method ∈ ["sum", "mean", "max", "min"] then
    if freq ≤ 0 then .error "Frequency must be a positive duration."
    else
      let ini := initial_datetime.getD (streamLower sd)
      let fin := final_datetime.getD (streamUpper sd)
      .ok (resample_core sd agg_method freq ini fin)
  else .error "Aggregation method must be one of: sum, mean, max, min."

/-- `WEARABLE_RESAMPLE_METHOD` from `readers.py`: the canonical aggregation
rule per stream name. -/
def WEARABLE_RESAMPLE_METHOD : List (String × String) :=
  [("steps", "sum"), ("wake", "max"), ("heartrate", "mean"),
   ("light_estimate", "mean"), ("activity", "mean")]

/-- Sequence a fallible map over a list, stopping at the first error, as a
Python loop of raising calls does. -/
def mapExcept {α β : Type} (f : α → Except String β) : List α →
    Except String (List β)
  | [] => .ok []
  | x :: xs =>
    match f x, mapExcept f xs with
    | .error e, _ => .error e
    | .ok y, .error e => .error e
    | .ok y, .ok ys => .ok (y :: ys)

/-- A resampled single-column frame as rows `(datetime, [value])`, the shape
fed into the pairwise `merge` chain.  `Option` marks values a pandas outer
merge would fill with missing markers. -/
def toRows (tv : List Int × List ℚ) : List (Int × List (Option ℚ)) :=
  tv.1.zip (tv.2.map (fun v => [some v]))

/-- Find the value list of the row keyed by datetime `k`, if any. -/
def rowLookup (k : Int) : List (Int × List (Option ℚ)) →
    Option (List (Option ℚ))
  | [] => none
  | r :: rs => if r.1 = k then some r.2 else rowLookup k rs

/-- `pd.merge(L, R, on=datetime, how=outer)` for frames whose keys are
unique: left rows extended with the matching right values (missing filled
with `none`), followed by the right-only rows padded on the left. -/
def outerMerge (L R : List (Int × List (Option ℚ))) :
    List (Int × List (Option ℚ)) :=
  let nL := ((L.headD (0, [])).2).length
  L.map (fun r => (r.1, r.2 ++ ((rowLookup r.1 R).getD [none])))
    ++ (R.filter (fun r => (rowLookup r.1 L).isNone)).map
      (fun r => (r.1, List.replicate nL none ++ r.2))

/-- Insert a row into a row list sorted by ascending datetime. -/
def insertRow (r : Int × List (Option ℚ)) :
    List (Int × List (Option ℚ)) → List (Int × List (Option ℚ))
  | [] => [r]
  | x :: xs => if r.1 < x.1 then r :: x :: xs else x :: insertRow r xs

/-- `df.sort_values(by=datetime)` as an insertion sort over rows. -/
def sortRows (l : List (Int × List (Option ℚ))) :
    List (Int × List (Option ℚ)) :=
  l.foldr insertRow []

/-- One iteration of the combiner's resampling loop: look up the stream's
canonical aggregation (`KeyError` for an unknown name) and resample it to
the shared bounds. -/
def combineStep (freq ini fin : Int) (p : String × StreamData) :
    Except String (List Int × List ℚ) :=
  match WEARABLE_RESAMPLE_METHOD.lookup p.1 with
  | none => .error "KeyError"
  | some method => resample_df p.2 freq method (some ini) (some fin)

/-- Chain the pairwise outer merges `df_list[0].merge(df_list[1])...` -/
def mergeChain (rows : List (List (Int × List (Option ℚ)))) :
    List (Int × List (Option ℚ)) :=
  match rows with
  | [] => []
  | r :: rs => rs.foldl outerMerge r

/-- `combine_wearable_dataframes` from `readers.py`: shared bounds from the
per-stream minima/maxima, one `resample_df` per stream with its canonical
aggregation, a chain of outer merges on `datetime`, and a final sort.
An unknown stream name raises `KeyError` when its aggregation is looked
up; an empty dict fails at `df_list[0]`. -/
def combine_wearable_dataframes (dfs : List (String × StreamData))
    (freq : Int) :
    Except String (List String × List (Int × List (Option ℚ))) :=
  match dfs with
  | [] => .error "list index out of range"
  | _ :: _ =>
    let ini := listMin (dfs.map (fun p => streamLower p.2))
    let fin := listMax (dfs.map (fun p => streamUpper p.2))
    match mapExcept (combineStep freq ini fin) dfs with
    | .error e => .error e
    | .ok resampled =>
      .ok (dfs.map Prod.fst, sortRows (mergeChain (resampled.map toRows)))

/-- The shared grid `combine_wearable_dataframes` resamples every stream
onto: from the minimum lower bound to the maximum upper bound over all
input streams, at the requested frequency. -/
def combineGrid (dfs : List (String × StreamData)) (freq : Int) : List Int :=
  dateRange (listMin (dfs.map (fun p => streamLower p.2)))
    (listMax (dfs.map (fun p => streamUpper p.2))) freq

/-- The canonical aggregation rule the combiner applies to a stream name
(`"sum"` is an arbitrary default: the lookup succeeds for every valid
name). -/
def methodFor (name : String) : String :=
  (WEARABLE_RESAMPLE_METHOD.lookup name).getD "sum"

/-- A concrete two-stream dictionary with partially overlapping spans, used
to instantiate the combiner results. -/
def twoStreamDict : List (String × StreamData) :=
  [("steps", .instant [0, 60] [5, 5]),
   ("heartrate", .instant [60, 120] [7, 7])]

/-- The uniform grid `t0, t0+s, ..., t0+(n-1)s` used to state claims about
streams sampled at a fixed step. -/
def gridList (t0 s : Int) (n : Nat) : List Int :=
  (List.range n).map (fun (i : Nat) => t0 + (i : Int) * s)

/-- `np.diff`: successive differences of a series. -/
def npDiff (l : List ℚ) : List ℚ :=
  (l.zip l.tail).map (fun p => p.2 - p.1)

/-- `np.isclose` at its default tolerances `rtol = 1e-5`, `atol = 1e-8`:
`|a - b| <= atol + rtol * |b|`. -/
def npIsClose (a b : ℚ) : Bool :=
  decide (|a - b| ≤ 1 / 100000000 + |b| / 100000)

/-- `np.arange(start, stop, step)` for positive `step`:
`ceil((stop - start) / step)` points `start + i * step`, none when the
span is empty. -/
def arange (start stop step : ℚ) : List ℚ :=
  (List.range (Int.toNat ⌈(stop - start) / step⌉)).map
    (fun (i : Nat) => start + (i : ℚ) * step)

/-- `np.mod(t, 24.0)`: remainder in `[0, 24)`. -/
def qmod24 (t : ℚ) : ℚ := t - 24 * ⌊t / 24⌋

/-- Segment walk of `np.interp` over consecutive breakpoints; assumes the
breakpoints sorted, which the validated `time` array is. -/
def interpSegments (x : ℚ) : List ℚ → List ℚ → ℚ
  | x1 :: x2 :: xs, f1 :: f2 :: fs =>
    if x ≤ x2 then f1 + (f2 - f1) * (x - x1) / (x2 - x1)
    else interpSegments x (x2 :: xs) (f2 :: fs)
  | _ :: [], f1 :: _ => f1
  | _, _ => 0

/-- `np.interp(x, xp, fp)`: linear interpolation clamped to the first and
last sample values. -/
def npInterp (x : ℚ) (xp fp : List ℚ) : ℚ :=
  match xp, fp with
  | x0 :: _, f0 :: _ => if x ≤ x0 then f0 else interpSegments x xp fp
  | _, _ => 0

/-- Modelled from the spec: the Hannay19 oscillator model imported by
`metrics.py` is outside this repository slice, so `esri` is parametric in
it.  Per §6, a model takes a time array, an initial state
`(amplitude, phase, drift)` and a light array sampled at the time array,
and the driver consumes the amplitude component of the trajectory's final
state, here the returned rational.  A phase is represented exactly as a
pair `(a, b)` standing for `a + b·π`, since the driver only ever builds
phases of that shape. -/
def OscillatorModel : Type :=
  List ℚ → ℚ × (ℚ × ℚ) × ℚ → List ℚ → ℚ

/-- The input-validation prefix of `esri`, in source order, returning the
message of the first failing check: mismatched lengths, the `IndexError`
from `np.diff(time)[0]` on a too-short series, a non-uniform step (by
`np.isclose` against the first difference), `analysis_days < 1`,
`esri_dt <= 0`, or a negative initial amplitude. -/
def esriValidationError (time light_schedule : List ℚ) (analysis_days : Int)
    (esri_dt initial_amplitude : ℚ) : Option String :=
  if time.length ≠ light_schedule.length then
    some "time and light_schedule must be the same length"
  else
    match npDiff time with
    | [] => some "index 0 is out of bounds for axis 0 with size 0"
    | d :: ds =>
      if !((d :: ds).all (fun x => npIsClose x d)) then
        some "time must have a fixed time resolution"
      else if analysis_days < 1 then
        some "analysis_days must be greater than 0"
      else if esri_dt ≤ 0 then
        some "esri_dt must be greater than 0"
      else if initial_amplitude < 0 then
        some "initial_amplitude must be non-negative"
      else none

/-- The post-validation body of `esri`: one candidate starting point every
`esri_dt` hours from `time[0]` up to (excluding) `time[-1] - D*24`; per
starting point, an initial phase `phase_at_midnight + mod(t,24)·π/12`, the
light window interpolated onto the oscillator step `np.diff(time)[0]`, and
the model's final amplitude; negative amplitudes become the invalid marker
`none`, and the final flag records whether the NaN warning fired. -/
def esriCore (model : OscillatorModel) (time light_schedule : List ℚ)
    (analysis_days : Int) (esri_dt initial_amplitude phase_at_midnight : ℚ) :
    List ℚ × List (Option ℚ) × Bool :=
  let simulation_dt := (npDiff time).headD 0
  let esri_time := arange (time.headD 0)
    (time.getLastD 0 - (analysis_days : ℚ) * 24) esri_dt
  let raw := esri_time.map (fun t =>
    let initial_phase := (phase_at_midnight, qmod24 t / 12)
    let simulation_time := arange t (t + (analysis_days : ℚ) * 24)
      simulation_dt
    let simulation_light := simulation_time.map
      (fun x => npInterp x time light_schedule)
    model simulation_time (initial_amplitude, initial_phase, 0)
      simulation_light)
  let esri_array := raw.map (fun v => if v < 0 then none else some v)
  (esri_time, esri_array, esri_array.any Option.isNone)

/-- `esri` from `metrics.py`: eager validation, then the sliding-window
simulation.  The boolean records whether the non-fatal NaN warning was
issued. -/
def esri (model : OscillatorModel) (time light_schedule : List ℚ)
    (analysis_days : Int) (esri_dt initial_amplitude phase_at_midnight : ℚ) :
    Except String (List ℚ × List (Option ℚ) × Bool) :=
  match esriValidationError time light_schedule analysis_days esri_dt
      initial_amplitude with
  | some msg => .error msg
  | none => .ok (esriCore model time light_schedule analysis_days esri_dt
      initial_amplitude phase_at_midnight)

lemma foldl_min_of_le (l : List Int) (a : Int) (h : ∀ x ∈ l, a ≤ x) :
    l.foldl min a = a := by
  induction l with
  | nil => rfl
  | cons x xs ih =>
    have hax : min a x = a := min_eq_left (h x (List.mem_cons_self x xs))
    simpa [hax] using ih (fun y hy => h y (List.mem_cons_of_mem x hy))

lemma le_foldl_max (l : List Int) (a : Int) : a ≤ l.foldl max a := by
  induction l generalizing a with
  | nil => exact le_refl a
  | cons x xs ih =>
    exact le_trans (le_max_left a x) (by simpa using ih (max a x))

lemma mem_le_foldl_max (l : List Int) (a x : Int) (hx : x ∈ l) :
    x ≤ l.foldl max a := by
  induction l generalizing a with
  | nil => cases hx
  | cons y ys ih =>
    rcases List.mem_cons.mp hx with rfl | h
    · exact le_trans (le_max_right a x) (le_foldl_max ys (max a x))
    · apply ih <;> exact h

lemma foldl_max_le (l : List Int) (a b : Int) (ha : a ≤ b)
    (h : ∀ x ∈ l, x ≤ b) : l.foldl max a ≤ b := by
  induction l generalizing a with
  | nil => exact ha
  | cons x xs ih =>
    exact ih (max a x) (max_le ha (h x (List.mem_cons_self x xs)))
      (fun y hy => h y (List.mem_cons_of_mem x hy))

lemma gridList_cons (t0 s : Int) (m : Nat) :
    gridList t0 s (m + 1)
      = t0 :: (List.range m).map (fun (i : Nat) => t0 + ((i : Int) + 1) * s) := by
  unfold gridList
  rw [List.range_succ_eq_map, List.map_cons, List.map_map]
  simp [Function.comp_def]

lemma listMin_gridList (t0 s : Int) (m : Nat) (hs : 0 < s) :
    listMin (gridList t0 s (m + 1)) = t0 := by
  rw [gridList_cons]
  unfold listMin
  apply foldl_min_of_le
  intro x hx
  rcases List.mem_map.mp hx with ⟨i, _, rfl⟩
  nlinarith [Int.natCast_nonneg i]

lemma listMax_gridList (t0 s : Int) (m : Nat) (hs : 0 < s) :
    listMax (gridList t0 s (m + 1)) = t0 + (m : Int) * s := by
  rw [gridList_cons]
  unfold listMax
  apply le_antisymm
  · apply foldl_max_le
    · nlinarith [Int.natCast_nonneg m]
    · intro x hx
      rcases List.mem_map.mp hx with ⟨i, hi, rfl⟩
      have hi' : i < m := List.mem_range.mp hi
      have : (i : Int) + 1 ≤ (m : Int) := by omega
      nlinarith
  · rcases Nat.eq_zero_or_pos m with rfl | hm
    · simpa using le_foldl_max _ t0
    · have hmem : t0 + (m : Int) * s ∈
          (List.range m).map (fun (i : Nat) => t0 + ((i : Int) + 1) * s) := by
        apply List.mem_map.mpr
        refine ⟨m - 1, List.mem_range.mpr (by omega), ?_⟩
        have h5 : ((m - 1 : Nat) : Int) + 1 = (m : Int) := by omega
        rw [h5]
      exact mem_le_foldl_max _ t0 _ hmem

lemma dateRange_gridList (t0 s : Int) (m : Nat) (hs : 0 < s) :
    dateRange t0 (t0 + (m : Int) * s) s = gridList t0 s (m + 1) := by
  unfold dateRange gridList
  rw [if_neg]
  · have h1 : t0 + (m : Int) * s - t0 = (m : Int) * s := by ring
    rw [h1, Int.mul_ediv_cancel _ (ne_of_gt hs)]
    simp
  · push_neg
    refine ⟨by omega, ?_⟩
    have : 0 ≤ (m : Int) * s := mul_nonneg (Int.natCast_nonneg m) hs.le
    linarith

lemma range_filter_window (m k : Nat) (hk : k < m) :
    (List.range m).filter (fun i => decide (k ≤ i) && decide (i ≤ k + 1))
      = if k + 1 < m then [k, k + 1] else [k] := by
  induction m with
  | zero => omega
  | succ n ih =>
    rw [List.range_succ, List.filter_append]
    by_cases h1 : k < n
    · rw [ih h1]
      by_cases h2 : k + 1 < n
      · have hn : ¬ (n ≤ k + 1) := by omega
        simp [hn, h2, show k + 1 < n + 1 by omega]
      · have hkn : n = k + 1 := by omega
        have h3 : k ≤ n := by omega
        have h4 : n ≤ k + 1 := by omega
        simp [h3, h4, hkn, show k + 1 < n + 1 by omega]
    · have hkn : k = n := by omega
      have hnil : (List.range n).filter
          (fun i => decide (k ≤ i) && decide (i ≤ k + 1)) = [] := by
        apply List.filter_eq_nil_iff.mpr
        intro a ha
        have : a < n := List.mem_range.mp ha
        simp [show ¬ (k ≤ a) by omega]
      rw [hnil]
      simp [hkn, show ¬ (n + 1 < n + 1) by omega]

lemma instantBucket_grid (t0 s : Int) (m : Nat) (v : Nat → ℚ) (hs : 0 < s)
    (k : Nat) (hk : k < m + 1) :
    instantBucket (gridList t0 s (m + 1)) ((List.range (m + 1)).map v) "sum"
      s (t0 + (k : Int) * s)
      = if k + 1 < m + 1 then v k + v (k + 1) else v k := by
  unfold instantBucket gridList
  rw [List.zip_map', List.filter_map]
  have hpred : ((List.range (m + 1)).filter
      ((fun p : Int × ℚ =>
        t0 + (k : Int) * s ≤ p.1 && p.1 ≤ t0 + (k : Int) * s + s) ∘
        (fun i : Nat => (t0 + (i : Int) * s, v i))))
      = (List.range (m + 1)).filter
        (fun i => decide (k ≤ i) && decide (i ≤ k + 1)) := by
    apply List.filter_congr
    intro i _
    simp only [Function.comp_def]
    have e1 : (t0 + (k : Int) * s ≤ t0 + (i : Int) * s) ↔ k ≤ i := by
      rw [add_le_add_iff_left, mul_le_mul_right hs, Nat.cast_le]
    have e2 : (t0 + (i : Int) * s ≤ t0 + (k : Int) * s + s) ↔ i ≤ k + 1 := by
      have h1 : t0 + (k : Int) * s + s = t0 + ((k : Int) + 1) * s := by ring
      rw [h1, add_le_add_iff_left, mul_le_mul_right hs]
      constructor
      · intro h
        exact_mod_cast h
      · intro h
        exact_mod_cast h
    rw [decide_eq_decide.mpr e1, decide_eq_decide.mpr e2]
  rw [hpred, range_filter_window (m + 1) k hk]
  by_cases h2 : k + 1 < m + 1
  · simp only [h2, if_pos]
    norm_num [aggList]
  · simp only [h2, if_neg, if_false]
    norm_num [aggList]

/-- C3 counterexample: an instant stream on the uniform grid `{0s, 60s}`
with values `[1, 1]`, resampled with `sum` at the native 60-second step and
default bounds, returns values `[2, 1]`, not the original `[1, 1]`: the
bucket at `0` is inclusive at both ends and also captures the record at
`60`. -/
theorem resample_native_sum_counterexample :
    resample_df (.instant [0, 60] [1, 1]) 60 "sum" none none
      = .ok ([0, 60], [2, 1])
    ∧ ([2, 1] : List ℚ) ≠ [1, 1] := by
  constructor
  · norm_num [resample_df, resample_core, streamLower, streamUpper, listMin,
      listMax, dateRange, bucketValue, instantBucket, aggList, List.range_succ]
  · norm_num

/-- C3 amended: resampling an instant stream on a uniform grid with step
`s` (one record per grid point) with `sum` at frequency `s` and default
bounds keeps the timestamps, but each value becomes the original value plus
the following one, because the bucket `[g, g+s]` is inclusive at both ends;
only the final grid point keeps its original value. -/
theorem resample_native_sum_shifted (t0 s : Int) (m : Nat) (v : Nat → ℚ)
    (hs : 0 < s) :
    resample_df (.instant (gridList t0 s (m + 1)) ((List.range (m + 1)).map v))
      s "sum" none none
      = .ok (gridList t0 s (m + 1),
          (List.range (m + 1)).map
            (fun k => if k + 1 < m + 1 then v k + v (k + 1) else v k)) := by
  unfold resample_df
  rw [if_pos (by decide), if_neg (not_le.mpr hs)]
  unfold resample_core
  simp only [Option.getD, streamLower, streamUpper]
  rw [listMin_gridList t0 s m hs, listMax_gridList t0 s m hs,
    dateRange_gridList t0 s m hs]
  have hmap : (gridList t0 s (m + 1)).map
      (bucketValue (.instant (gridList t0 s (m + 1))
        ((List.range (m + 1)).map v)) "sum" s)
      = (List.range (m + 1)).map
        (fun k => if k + 1 < m + 1 then v k + v (k + 1) else v k) := by
    unfold gridList
    rw [List.map_map]
    apply List.map_congr_left
    intro k hk
    simp only [Function.comp_def, bucketValue]
    exact instantBucket_grid t0 s m v hs k (List.mem_range.mp hk)
  rw [hmap]

/-- Witness for C3 amended at `t0 = 0`, `s = 60`, two records of value 1. -/
theorem resample_native_sum_shifted_witness :
    resample_df (.instant (gridList 0 60 2) ((List.range 2).map (fun _ => (1 : ℚ))))
      60 "sum" none none
      = .ok (gridList 0 60 2,
          (List.range 2).map
            (fun (k : Nat) => if k + 1 < 2 then (1 : ℚ) + 1 else 1)) :=
  resample_native_sum_shifted 0 60 1 (fun _ => (1 : ℚ)) (by norm_num)

lemma intToNat_two : (2 : Int).toNat = 2 := rfl

/-- C6 counterexample: combining a `steps` stream on `{0s, 60s}` with a
`heartrate` stream on `{60s, 120s}` at a 60-second frequency yields the
union grid `{0, 60, 120}`, but the `heartrate` column holds `7`, not `0`,
at grid point `0` — a timestamp strictly outside that stream's native
coverage `[60, 120]` — because the bucket `[0, 60]` is inclusive at its
upper end and captures the record at `60`. -/
theorem combine_nonzero_outside_coverage :
    combine_wearable_dataframes
      [("steps", .instant [0, 60] [5, 5]),
       ("heartrate", .instant [60, 120] [7, 7])] 60
      = .ok (["steps", "heartrate"],
          [(0, [some 10, some 7]), (60, [some 5, some 7]),
           (120, [some 0, some 7])])
    ∧ some (7 : ℚ) ≠ some (0 : ℚ) := by
  constructor
  · have hsteps : resample_df (.instant [0, 60] [5, 5]) 60 "sum"
        (some 0) (some 120) = .ok ([0, 60, 120], [10, 5, 0]) := by
      norm_num [resample_df, resample_core, dateRange, List.range_succ,
        intToNat_two, bucketValue, instantBucket, aggList]
    have hhr : resample_df (.instant [60, 120] [7, 7]) 60 "mean"
        (some 0) (some 120) = .ok ([0, 60, 120], [7, 7, 7]) := by
      norm_num [resample_df, resample_core, dateRange, List.range_succ,
        intToNat_two, bucketValue, instantBucket, aggList]
    have hlook1 : WEARABLE_RESAMPLE_METHOD.lookup "steps" = some "sum" := rfl
    have hlook2 : WEARABLE_RESAMPLE_METHOD.lookup "heartrate"
        = some "mean" := rfl
    have hini : listMin [streamLower (.instant [0, 60] [5, 5]),
        streamLower (.instant [60, 120] [7, 7])] = 0 := by
      norm_num [listMin, streamLower]
    have hfin : listMax [streamUpper (.instant [0, 60] [5, 5]),
        streamUpper (.instant [60, 120] [7, 7])] = 120 := by
      norm_num [listMax, streamUpper]
    simp only [combine_wearable_dataframes, List.map, hini, hfin, mapExcept,
      combineStep, hlook1, hlook2, hsteps, hhr]
    norm_num [mergeChain, toRows, outerMerge, sortRows, insertRow, rowLookup]
  · norm_num

/-- C1: `interval_fraction` on a well-formed source interval `[7200, 10800)`
disjoint from the reference interval `[0, 3600)` returns `23`, not the `0`
required by the specification: the negative overlap `-3600` seconds is read
through the `Timedelta.seconds` component, which wraps it to `82800`, and
`82800 / 3600 = 23` lies far outside `[0, 1]`. -/
theorem interval_fraction_disjoint_value :
    interval_fraction [7200] [10800] 0 3600 = [PyVal.num 23] := by
  norm_num [interval_fraction, tdSeconds, pyDiv]

/-- C4: `interval_fraction` on a zero-duration source interval performs no
validation and silently divides by zero: with `start = stop = 0` and
reference `[10, 20)` it returns `inf` instead of raising an invalid-input
error. -/
theorem interval_fraction_zero_duration_inf :
    interval_fraction [0] [0] 10 20 = [PyVal.inf] := by
  norm_num [interval_fraction, tdSeconds, pyDiv]

/-- C9: column validation accepts any frame having at least one recognized
stream column together with any of `datetime`, `start` or `end`; in
particular a frame with only a `start` column and one with a mixed
`datetime`/`start`/`end` shape both pass, and `is_valid` accepts them with
empty metadata. -/
theorem validate_columns_accepts (cols : List String)
    (hstream : VALID_WEARABLE_STREAMS.any (fun s => cols.contains s) = true)
    (htime : cols.contains "datetime" = true ∨ cols.contains "start" = true ∨
      cols.contains "end" = true) :
    validate_columns cols = true
    ∧ validate_columns ["start", "steps"] = true
    ∧ is_valid ["start", "steps"] [] = true
    ∧ validate_columns ["datetime", "start", "end", "steps"] = true
    ∧ is_valid ["datetime", "start", "end", "steps"] [] = true := by
  refine ⟨?_, by decide, by decide, by decide, by decide⟩
  unfold validate_columns
  rw [Bool.and_eq_true, Bool.or_eq_true, Bool.or_eq_true]
  rcases htime with h | h | h
  · exact ⟨Or.inl (Or.inl h), hstream⟩
  · exact ⟨Or.inl (Or.inr h), hstream⟩
  · exact ⟨Or.inr h, hstream⟩

/-- Witness for C9 at the concrete one-column frame `["start", "steps"]`. -/
theorem validate_columns_accepts_witness :
    validate_columns ["start", "steps"] = true
    ∧ validate_columns ["start", "steps"] = true
    ∧ is_valid ["start", "steps"] [] = true
    ∧ validate_columns ["datetime", "start", "end", "steps"] = true
    ∧ is_valid ["datetime", "start", "end", "steps"] [] = true :=
  validate_columns_accepts ["start", "steps"] (by decide) (Or.inr (Or.inl (by decide)))

lemma rowLookup_map_self (G : List Int) (f : Int → List (Option ℚ)) (x : Int)
    (hx : x ∈ G) :
    rowLookup x (G.map (fun g => (g, f g))) = some (f x) := by
  induction G with
  | nil => cases hx
  | cons g gs ih =>
    simp only [List.map_cons, rowLookup]
    by_cases h : g = x
    · subst h
      simp
    · rw [if_neg h]
      rcases List.mem_cons.mp hx with h1 | h1
      · exact absurd h1.symm h
      · exact ih h1

lemma outerMerge_same_keys (G : List Int) (F c : Int → List (Option ℚ)) :
    outerMerge (G.map fun g => (g, F g)) (G.map fun g => (g, c g))
      = G.map (fun g => (g, F g ++ c g)) := by
  have h1 : (G.map fun g => (g, F g)).map
      (fun r => (r.1, r.2 ++ ((rowLookup r.1 (G.map fun g => (g, c g))).getD
        [none])))
      = G.map (fun g => (g, F g ++ c g)) := by
    rw [List.map_map]
    apply List.map_congr_left
    intro g hg
    simp only [Function.comp_def]
    rw [rowLookup_map_self G c g hg]
    rfl
  have h2 : (G.map fun g => (g, c g)).filter
      (fun r => (rowLookup r.1 (G.map fun g => (g, F g))).isNone) = [] := by
    apply List.filter_eq_nil_iff.mpr
    intro r hr
    rcases List.mem_map.mp hr with ⟨g, hg, rfl⟩
    simp [rowLookup_map_self G F g hg]
  simp only [outerMerge]
  rw [h1, h2]
  simp

lemma flatten_map_singleton {α β : Type} (l : List α) (f : α → β) :
    (l.map (fun x => [f x])).flatten = l.map f := by
  induction l with
  | nil => rfl
  | cons x xs ih => simp [ih]

lemma foldl_outerMerge_cols {α : Type} (G : List Int) (cs : List α)
    (col : α → Int → List (Option ℚ)) (F : Int → List (Option ℚ)) :
    (cs.map (fun c => G.map (fun g => (g, col c g)))).foldl outerMerge
      (G.map (fun g => (g, F g)))
      = G.map (fun g => (g, F g ++ (cs.map (fun c => col c g)).flatten)) := by
  induction cs generalizing F with
  | nil => simp
  | cons c cs ih =>
    simp only [List.map_cons, List.foldl_cons]
    rw [outerMerge_same_keys G F (fun g => col c g),
      ih (fun g => F g ++ col c g)]
    apply List.map_congr_left
    intro g hg
    simp [List.append_assoc]

lemma insertRow_sorted (r : Int × List (Option ℚ))
    (rs : List (Int × List (Option ℚ))) (h : ∀ x ∈ rs, r.1 < x.1) :
    insertRow r rs = r :: rs := by
  cases rs with
  | nil => rfl
  | cons x xs =>
    unfold insertRow
    rw [if_pos (h x (List.mem_cons_self x xs))]

lemma sortRows_sorted_id (rows : List (Int × List (Option ℚ)))
    (h : rows.Pairwise (fun a b => a.1 < b.1)) : sortRows rows = rows := by
  induction rows with
  | nil => rfl
  | cons r rs ih =>
    have h1 := List.pairwise_cons.mp h
    simp only [sortRows, List.foldr_cons] at *
    rw [ih h1.2]
    exact insertRow_sorted r rs h1.1

lemma dateRange_pairwise (ini fin freq : Int) (hf : 0 < freq) :
    (dateRange ini fin freq).Pairwise (· < ·) := by
  unfold dateRange
  split
  · exact List.Pairwise.nil
  · apply List.Pairwise.map
    · intro a b hab
      have hab' : (a : Int) < (b : Int) := by exact_mod_cast hab
      exact add_lt_add_left (mul_lt_mul_of_pos_right hab' hf) ini
    · exact List.pairwise_lt_range _

lemma bucketValue_of_empty (sd : StreamData) (agg : String) (freq g : Int)
    (h : bucketMaskEmpty sd freq g) : bucketValue sd agg freq g = 0 := by
  cases sd with
  | instant times values =>
    simp only [bucketMaskEmpty] at h
    simp [bucketValue, instantBucket, h]
  | interval starts stops values =>
    simp only [bucketMaskEmpty] at h
    simp [bucketValue, intervalBucket, h]

lemma lookup_method_mem (name m : String)
    (h : WEARABLE_RESAMPLE_METHOD.lookup name = some m) :
    m = "sum" ∨ m = "mean" ∨ m = "max" ∨ m = "min" := by
  simp only [WEARABLE_RESAMPLE_METHOD, List.lookup] at h
  repeat' split at h
  all_goals simp_all

lemma resample_df_ok (sd : StreamData) (freq ini fin : Int) (m : String)
    (hfreq : 0 < freq)
    (hm : m = "sum" ∨ m = "mean" ∨ m = "max" ∨ m = "min") :
    resample_df sd freq m (some ini) (some fin)
      = .ok (dateRange ini fin freq,
          (dateRange ini fin freq).map (bucketValue sd m freq)) := by
  have hmem : m ∈ ["sum", "mean", "max", "min"] := by
    rcases hm with rfl | rfl | rfl | rfl <;> decide
  unfold resample_df
  rw [if_pos hmem, if_neg (not_le.mpr hfreq)]
  rfl

lemma zip_self_map (G : List Int) (h : Int → List (Option ℚ)) :
    G.zip (G.map h) = G.map (fun g => (g, h g)) := by
  induction G with
  | nil => rfl
  | cons x xs ih => simp [ih]

lemma mapExcept_ok {α β : Type} (f : α → Except String β) (g : α → β)
    (l : List α) (h : ∀ a ∈ l, f a = .ok (g a)) :
    mapExcept f l = .ok (l.map g) := by
  induction l with
  | nil => rfl
  | cons x xs ih =>
    simp only [mapExcept, h x (List.mem_cons_self x xs),
      ih (fun a ha => h a (List.mem_cons_of_mem x ha)), List.map_cons]

lemma toRows_resampled (G : List Int) (bv : Int → ℚ) :
    toRows (G, G.map bv) = G.map (fun g => (g, [some (bv g)])) := by
  unfold toRows
  rw [List.map_map]
  exact zip_self_map G _

lemma combine_resample_step (p : String × StreamData) (freq ini fin : Int)
    (hp : (WEARABLE_RESAMPLE_METHOD.lookup p.1).isSome = true)
    (hfreq : 0 < freq) :
    combineStep freq ini fin p
      = .ok (dateRange ini fin freq,
          (dateRange ini fin freq).map
            (bucketValue p.2 (methodFor p.1) freq)) := by
  obtain ⟨m, hm⟩ := Option.isSome_iff_exists.mp hp
  have h2 : methodFor p.1 = m := by rw [methodFor, hm]; rfl
  unfold combineStep
  rw [hm, h2]
  exact resample_df_ok p.2 freq ini fin m hfreq (lookup_method_mem _ _ hm)

/-- C6 amended: for every non-empty dictionary of recognized streams and
positive frequency, `combine_wearable_dataframes` returns the single
uniform grid running from the minimum lower bound to the maximum upper
bound over all streams, sorted strictly ascending (hence each timestamp
appears exactly once), with one column per stream holding that stream's
resampled bucket value at every grid point; a stream's column is `0` at
every grid point whose bucket selects none of its records — which, because
the bucket `[g, g+freq]` is inclusive at both ends, excludes one
bucket-length before the stream's native coverage rather than everything
outside it. -/
theorem combine_aligned_grid (dfs : List (String × StreamData)) (freq : Int)
    (hne : dfs ≠ [])
    (hmeth : ∀ p ∈ dfs, (WEARABLE_RESAMPLE_METHOD.lookup p.1).isSome = true)
    (hfreq : 0 < freq) :
    combine_wearable_dataframes dfs freq
      = .ok (dfs.map Prod.fst,
          (combineGrid dfs freq).map (fun g =>
            (g, dfs.map (fun p =>
              some (bucketValue p.2 (methodFor p.1) freq g)))))
    ∧ (combineGrid dfs freq).Pairwise (· < ·)
    ∧ (∀ p ∈ dfs, ∀ g : Int, bucketMaskEmpty p.2 freq g →
        bucketValue p.2 (methodFor p.1) freq g = 0) := by
  refine ⟨?_, dateRange_pairwise _ _ _ hfreq,
    fun p _ g hg => bucketValue_of_empty _ _ _ _ hg⟩
  obtain ⟨p0, rest, rfl⟩ : ∃ p0 rest, dfs = p0 :: rest := by
    cases dfs with
    | nil => exact absurd rfl hne
    | cons a l => exact ⟨a, l, rfl⟩
  simp only [combine_wearable_dataframes, combineGrid]
  set ini := listMin ((p0 :: rest).map (fun p => streamLower p.2)) with hini
  set fin := listMax ((p0 :: rest).map (fun p => streamUpper p.2)) with hfin
  set G := dateRange ini fin freq with hGdef
  have hmapped : mapExcept (combineStep freq ini fin) (p0 :: rest)
      = .ok ((p0 :: rest).map (fun p =>
          (G, G.map (bucketValue p.2 (methodFor p.1) freq)))) := by
    apply mapExcept_ok
    intro a ha
    rw [hGdef]
    exact combine_resample_step a freq ini fin (hmeth a ha) hfreq
  rw [hmapped]
  have hrows : ((p0 :: rest).map (fun p =>
      (G, G.map (bucketValue p.2 (methodFor p.1) freq)))).map toRows
      = (G.map (fun g =>
          (g, [some (bucketValue p0.2 (methodFor p0.1) freq g)])))
        :: rest.map (fun p => G.map (fun g =>
          (g, [some (bucketValue p.2 (methodFor p.1) freq g)]))) := by
    rw [List.map_map, List.map_cons]
    congr 1
    · exact toRows_resampled G _
    · apply List.map_congr_left
      intro p hp
      exact toRows_resampled G _
  dsimp only
  rw [hrows]
  dsimp only [mergeChain]
  rw [foldl_outerMerge_cols G rest
    (fun p g => [some (bucketValue p.2 (methodFor p.1) freq g)])
    (fun g => [some (bucketValue p0.2 (methodFor p0.1) freq g)])]
  have hrows2 : G.map (fun g =>
      (g, [some (bucketValue p0.2 (methodFor p0.1) freq g)]
        ++ (rest.map (fun p =>
          [some (bucketValue p.2 (methodFor p.1) freq g)])).flatten))
      = G.map (fun g => (g, (p0 :: rest).map (fun p =>
          some (bucketValue p.2 (methodFor p.1) freq g)))) := by
    apply List.map_congr_left
    intro g hg
    rw [flatten_map_singleton rest
      (fun p => some (bucketValue p.2 (methodFor p.1) freq g))]
    rfl
  rw [hrows2, sortRows_sorted_id]
  apply List.Pairwise.map
  · intro a b hab
    exact hab
  · rw [hGdef]
    exact dateRange_pairwise _ _ _ hfreq

/-- Witness for C6 amended at the two-stream dictionary. -/
theorem combine_aligned_grid_witness :
    combine_wearable_dataframes twoStreamDict 60
      = .ok (twoStreamDict.map Prod.fst,
          (combineGrid twoStreamDict 60).map (fun g =>
            (g, twoStreamDict.map (fun p =>
              some (bucketValue p.2 (methodFor p.1) 60 g)))))
    ∧ (combineGrid twoStreamDict 60).Pairwise (· < ·)
    ∧ (∀ p ∈ twoStreamDict, ∀ g : Int, bucketMaskEmpty p.2 60 g →
        bucketValue p.2 (methodFor p.1) 60 g = 0) :=
  combine_aligned_grid twoStreamDict 60
    (by unfold twoStreamDict; exact List.cons_ne_nil _ _)
    (by
      intro p hp
      simp only [twoStreamDict] at hp
      rcases List.mem_cons.mp hp with rfl | hp
      · rfl
      · rcases List.mem_cons.mp hp with rfl | hp
        · rfl
        · cases hp)
    (by norm_num)

lemma arange_empty (start stop step : ℚ) (hstep : 0 < step)
    (h : stop ≤ start) : arange start stop step = [] := by
  unfold arange
  have h1 : (stop - start) / step ≤ 0 := by
    rw [div_nonpos_iff]
    right
    exact ⟨by linarith, hstep.le⟩
  have h2 : ⌈(stop - start) / step⌉ ≤ 0 := Int.ceil_le.mpr (by exact_mod_cast h1)
  rw [Int.toNat_of_nonpos h2]
  rfl

lemma esriValidationError_none (time light : List ℚ) (days : Int)
    (dt amp : ℚ) :
    esriValidationError time light days dt amp = none ↔
      (time.length = light.length
        ∧ (∃ d ds, npDiff time = d :: ds
            ∧ (d :: ds).all (fun x => npIsClose x d) = true)
        ∧ 1 ≤ days ∧ 0 < dt ∧ 0 ≤ amp) := by
  unfold esriValidationError
  constructor
  · intro h
    by_cases h1 : time.length ≠ light.length
    · rw [if_pos h1] at h
      exact Option.noConfusion h
    rw [if_neg h1] at h
    rcases hnd : npDiff time with _ | ⟨d, ds⟩
    · simp only [hnd] at h
      exact Option.noConfusion h
    simp only [hnd] at h
    by_cases h2 : ((d :: ds).all fun x => npIsClose x d) = true
    · rw [if_neg (by simp [h2])] at h
      by_cases h3 : days < 1
      · rw [if_pos h3] at h
        exact Option.noConfusion h
      rw [if_neg h3] at h
      by_cases h4 : dt ≤ 0
      · rw [if_pos h4] at h
        exact Option.noConfusion h
      rw [if_neg h4] at h
      by_cases h5 : amp < 0
      · rw [if_pos h5] at h
        exact Option.noConfusion h
      exact ⟨by omega, ⟨d, ds, rfl, h2⟩, by omega,
        by linarith [not_le.mp h4], by linarith [not_lt.mp h5]⟩
    · have h2' : ((d :: ds).all fun x => npIsClose x d) = false :=
        Bool.eq_false_iff.mpr h2
      rw [if_pos (by simp [h2'])] at h
      exact Option.noConfusion h
  · rintro ⟨hlen, ⟨d, ds, hnd, hall⟩, hdays, hdt, hamp⟩
    rw [if_neg (by omega : ¬time.length ≠ light.length)]
    simp only [hnd]
    rw [if_neg (by simp [hall]), if_neg (by omega : ¬days < 1),
      if_neg (not_le.mpr hdt), if_neg (not_lt.mpr hamp)]

lemma esri_valid_ok (model : OscillatorModel) (time light : List ℚ)
    (days : Int) (dt amp pam : ℚ)
    (hnone : esriValidationError time light days dt amp = none) :
    esri model time light days dt amp pam
      = .ok (esriCore model time light days dt amp pam) := by
  unfold esri
  rw [hnone]

lemma esriCore_empty_of_short_span (model : OscillatorModel)
    (time light : List ℚ) (days : Int) (dt amp pam : ℚ) (hdt : 0 < dt)
    (hspan : time.getLastD 0 - time.headD 0 ≤ (days : ℚ) * 24) :
    esriCore model time light days dt amp pam = ([], [], false) := by
  unfold esriCore
  rw [arange_empty _ _ _ hdt (by linarith)]
  rfl

/-- C5: every value `esri` returns is either non-negative or the invalid
marker: a negative simulated final amplitude is replaced by `none`
(`np.nan`), the warning flag fires exactly when a marker is present, and
the full arrays are still returned rather than the computation aborting. -/
theorem esri_values_nonneg_or_nan (model : OscillatorModel)
    (time light : List ℚ) (analysis_days : Int)
    (esri_dt initial_amplitude phase_at_midnight : ℚ)
    (ts : List ℚ) (vs : List (Option ℚ)) (w : Bool)
    (h : esri model time light analysis_days esri_dt initial_amplitude
      phase_at_midnight = .ok (ts, vs, w)) :
    (∀ v ∈ vs, v = none ∨ ∃ x, v = some x ∧ 0 ≤ x)
    ∧ w = vs.any Option.isNone := by
  unfold esri at h
  split at h
  · exact Except.noConfusion h
  · rw [Except.ok.injEq] at h
    simp only [esriCore, Prod.mk.injEq] at h
    obtain ⟨hts, hvs, hw⟩ := h
    subst hvs
    subst hw
    refine ⟨?_, rfl⟩
    intro v hv
    rcases List.mem_map.mp hv with ⟨x, _, rfl⟩
    by_cases hx : x < 0
    · exact Or.inl (by simp [hx])
    · exact Or.inr ⟨x, by simp [hx], not_lt.mp hx⟩

/-- Witness for C5 on a 3-point light series with a constant-zero model. -/
theorem esri_values_nonneg_or_nan_witness :
    (∀ v ∈ [some (0 : ℚ)], v = none ∨ ∃ x, v = some x ∧ 0 ≤ x)
    ∧ false = [some (0 : ℚ)].any Option.isNone :=
  esri_values_nonneg_or_nan (fun _ _ _ => 0) [0, 24, 48] [0, 0, 0] 1 24 0 0
    [0] [some 0] false
    (by
      rw [esri_valid_ok (fun _ _ _ => 0) [0, 24, 48] [0, 0, 0] 1 24 0 0
        (by norm_num [esriValidationError, npDiff, npIsClose])]
      norm_num [esriCore, npDiff, arange, List.range_succ, Function.comp_def,
        show ((1 : Int) : ℚ) * 24 = 24 from by norm_num,
        show (1 : Int).toNat = 1 from rfl])

/-- C7: every parameter error of `esri` — mismatched array lengths,
non-uniform time step, `analysis_days < 1`, non-positive `esri_dt`, or a
negative initial amplitude — produces an error before any oscillator
simulation runs: the result is an `error` and is identical for any two
oscillator models, so no simulation output can be part of it. -/
theorem esri_param_errors_eager (m1 m2 : OscillatorModel)
    (time light : List ℚ) (analysis_days : Int)
    (esri_dt initial_amplitude pam : ℚ)
    (hbad : time.length ≠ light.length
      ∨ (∃ d ds, npDiff time = d :: ds
          ∧ (d :: ds).all (fun x => npIsClose x d) = false)
      ∨ analysis_days < 1 ∨ esri_dt ≤ 0 ∨ initial_amplitude < 0) :
    (∃ msg, esri m1 time light analysis_days esri_dt initial_amplitude pam
        = .error msg)
    ∧ esri m1 time light analysis_days esri_dt initial_amplitude pam
      = esri m2 time light analysis_days esri_dt initial_amplitude pam := by
  have hne : esriValidationError time light analysis_days esri_dt
      initial_amplitude ≠ none := by
    intro hnone
    obtain ⟨hlen, ⟨d, ds, hnd, hall⟩, hdays, hdt, hamp⟩ :=
      (esriValidationError_none time light analysis_days esri_dt
        initial_amplitude).mp hnone
    rcases hbad with hb | ⟨d', ds', hnd', hall'⟩ | hb | hb | hb
    · exact hb hlen
    · rw [hnd] at hnd'
      injection hnd' with e1 e2
      subst e1
      subst e2
      rw [hall] at hall'
      exact Bool.noConfusion hall'
    · omega
    · linarith
    · linarith
  obtain ⟨msg, hmsg⟩ := Option.ne_none_iff_exists'.mp hne
  refine ⟨⟨msg, ?_⟩, ?_⟩
  · unfold esri
    rw [hmsg]
  · unfold esri
    rw [hmsg]

/-- Witness for C7 at a length mismatch, with two different models. -/
theorem esri_param_errors_eager_witness :
    (∃ msg, esri (fun _ _ _ => 0) [0, 1] [0] 4 1 0 0 = .error msg)
    ∧ esri (fun _ _ _ => 0) [0, 1] [0] 4 1 0 0
      = esri (fun _ _ _ => 1) [0, 1] [0] 4 1 0 0 :=
  esri_param_errors_eager (fun _ _ _ => 0) (fun _ _ _ => 1) [0, 1] [0] 4 1 0 0
    (Or.inl (by norm_num))

/-- C10: a valid evenly-spaced series whose span is strictly shorter than
`analysis_days * 24` hours raises no error: `esri` returns empty time and
value arrays (the candidate starting-point range is empty). -/
theorem esri_short_span_empty (model : OscillatorModel)
    (time light : List ℚ) (d : ℚ) (ds : List ℚ) (analysis_days : Int)
    (esri_dt initial_amplitude pam : ℚ)
    (hlen : time.length = light.length)
    (hnd : npDiff time = d :: ds)
    (hall : (d :: ds).all (fun x => npIsClose x d) = true)
    (hdays : 1 ≤ analysis_days) (hdt : 0 < esri_dt)
    (hamp : 0 ≤ initial_amplitude)
    (hspan : time.getLastD 0 - time.headD 0 < (analysis_days : ℚ) * 24) :
    esri model time light analysis_days esri_dt initial_amplitude pam
      = .ok ([], [], false) := by
  rw [esri_valid_ok model time light analysis_days esri_dt
      initial_amplitude pam
      ((esriValidationError_none time light analysis_days esri_dt
        initial_amplitude).mpr ⟨hlen, ⟨d, ds, hnd, hall⟩, hdays, hdt, hamp⟩),
    esriCore_empty_of_short_span model time light analysis_days esri_dt
      initial_amplitude pam hdt (le_of_lt hspan)]

/-- Witness for C10: a 48-hour series analysed over 3 days. -/
theorem esri_short_span_empty_witness :
    esri (fun _ _ _ => 0) [0, 24, 48] [0, 0, 0] 3 1 0 0
      = .ok ([], [], false) :=
  esri_short_span_empty (fun _ _ _ => 0) [0, 24, 48] [0, 0, 0] 24 [24] 3 1 0 0
    (by norm_num) (by norm_num [npDiff]) (by norm_num [npIsClose])
    (by norm_num) (by norm_num) (by norm_num)
    (by norm_num [List.getLastD])

/-- C2 counterexample: `esri` with `analysis_days = 4`, `esri_dt = 1.0` on
a valid evenly-spaced series spanning exactly 96 hours returns an empty
time array — zero starting points, not the one point the claim requires —
because `np.arange(t0, t0, 1.0)` is empty. -/
theorem esri_exact_span_counterexample :
    esri (fun _ _ _ => 0) [0, 48, 96] [0, 0, 0] 4 1 0 0 = .ok ([], [], false)
    ∧ ([] : List ℚ).length ≠ 1 := by
  refine ⟨?_, by norm_num⟩
  rw [esri_valid_ok (fun _ _ _ => 0) [0, 48, 96] [0, 0, 0] 4 1 0 0
      ((esriValidationError_none [0, 48, 96] [0, 0, 0] 4 1 0).mpr
        ⟨by norm_num, ⟨48, [48], by norm_num [npDiff], by norm_num [npIsClose]⟩,
         by norm_num, by norm_num, le_refl 0⟩),
    esriCore_empty_of_short_span (fun _ _ _ => 0) [0, 48, 96] [0, 0, 0] 4 1 0 0
      (by norm_num) (by norm_num [List.getLastD])]

/-- C2 amended: with `analysis_days = 4` and `esri_dt = 1.0` on a valid
evenly-spaced series spanning exactly 96 hours, `esri` returns an empty
time array and an empty value array: the candidate starting-point range
`np.arange(time[0], time[-1] - 96, 1.0)` is half-open and excludes its
endpoint, so no starting point remains. -/
theorem esri_exact_span_empty (model : OscillatorModel)
    (time light : List ℚ) (d : ℚ) (ds : List ℚ)
    (initial_amplitude pam : ℚ)
    (hlen : time.length = light.length)
    (hnd : npDiff time = d :: ds)
    (hall : (d :: ds).all (fun x => npIsClose x d) = true)
    (hamp : 0 ≤ initial_amplitude)
    (hspan : time.getLastD 0 - time.headD 0 = 96) :
    esri model time light 4 1 initial_amplitude pam = .ok ([], [], false) := by
  rw [esri_valid_ok model time light 4 1 initial_amplitude pam
      ((esriValidationError_none time light 4 1 initial_amplitude).mpr
        ⟨hlen, ⟨d, ds, hnd, hall⟩, by norm_num, by norm_num, hamp⟩),
    esriCore_empty_of_short_span model time light 4 1 initial_amplitude pam
      (by norm_num) (by rw [hspan]; push_cast; norm_num)]

/-- Witness for C2 amended on the 48-hour-step series `0, 48, 96`. -/
theorem esri_exact_span_empty_witness :
    esri (fun _ _ _ => 1) [0, 48, 96] [0, 0, 0] 4 1 0 0
      = .ok ([], [], false) :=
  esri_exact_span_empty (fun _ _ _ => 1) [0, 48, 96] [0, 0, 0] 48 [48] 0 0
    (by norm_num) (by norm_num [npDiff]) (by norm_num [npIsClose])
    (le_refl 0) (by norm_num [List.getLastD])

/-- C8: `esri` and `resample_df` are pure functions of their arguments:
two runs on equal inputs return equal outputs, invalid markers included. -/
theorem esri_resample_deterministic (model : OscillatorModel)
    (t1 t2 l1 l2 : List ℚ) (d1 d2 : Int) (dt1 dt2 a1 a2 p1 p2 : ℚ)
    (sd1 sd2 : StreamData) (f1 f2 : Int) (g1 g2 : String)
    (i1 i2 j1 j2 : Option Int)
    (ht : t1 = t2) (hl : l1 = l2) (hd : d1 = d2) (hdt : dt1 = dt2)
    (ha : a1 = a2) (hp : p1 = p2) (hsd : sd1 = sd2) (hf : f1 = f2)
    (hg : g1 = g2) (hi : i1 = i2) (hj : j1 = j2) :
    esri model t1 l1 d1 dt1 a1 p1 = esri model t2 l2 d2 dt2 a2 p2
    ∧ resample_df sd1 f1 g1 i1 j1 = resample_df sd2 f2 g2 i2 j2 := by
  subst ht hl hd hdt ha hp hsd hf hg hi hj
  exact ⟨rfl, rfl⟩

/-- Witness for C8 at concrete equal inputs. -/
theorem esri_resample_deterministic_witness :
    esri (fun _ _ _ => 0) [0, 1] [0, 0] 1 1 0 0
      = esri (fun _ _ _ => 0) [0, 1] [0, 0] 1 1 0 0
    ∧ resample_df (.instant [0] [1]) 60 "sum" none none
      = resample_df (.instant [0] [1]) 60 "sum" none none :=
  esri_resample_deterministic (fun _ _ _ => 0) [0, 1] [0, 1] [0, 0] [0, 0]
    1 1 1 1 0 0 0 0 (.instant [0] [1]) (.instant [0] [1]) 60 60 "sum" "sum"
    none none none none rfl rfl rfl rfl rfl rfl rfl rfl rfl rfl rfl
